import Mathlib

/-!
# ZenSpend dashboard — verification of the transaction/recurrence subsystem

A shallow embedding of the Fastify + SQLite server routes of the ZenSpend
budgeting dashboard (`server/src/routes/transactions.ts`, `settings.ts`,
the migrate routes, and `server/src/db/schema.ts`), together with proofs
about the behaviour of the recurring-transaction generator, the
group-scoped mutations, settings, and import/export.

Modelling conventions:
* SQLite tables are Lean lists in insertion (rowid) order; `db.insert`
  appends, `db.select ... .get()` is `List.find?`, `db.update ... where id`
  maps over the list, `db.delete ... where id` filters the list.
* `crypto.randomUUID()` results are passed to each handler as explicit
  string parameters; theorems that need the real generator's freshness
  or distinctness take them as hypotheses.
* JS `number` is modelled as `ℚ` (the claims never exercise
  floating-point rounding, NaN or infinities).
* The `createdAt` / `updatedAt` bookkeeping columns are omitted: no claim
  mentions them, and every handler only ever writes `new Date().toISOString()`
  into `updatedAt`.
* Date arithmetic (`new Date(y, m, d)`, `getDate`, `toISOString`) is
  modelled as pure proleptic-Gregorian calendar arithmetic, i.e. the
  server clock runs at UTC; the ECMAScript quirk that a numeric year
  argument 0..99 is read as 1900 + year is modelled by `jsYear` (string
  parsing, by contrast, takes the year verbatim);
  `toISOString().split('T')[0]` is exact for years up to 9999, which
  covers every date accepted by the `YYYY-MM-DD` validation regex
  together with the ≤ 24-month projection horizon.
-/

namespace ZenSpend

/-- `type` column: `text('type', { enum: ['expense', 'income', 'cc_payment'] })`. -/
inductive TxnType where
  | expense
  | income
  | cc_payment
deriving DecidableEq, Repr

/-- `z.enum(['expense', 'income', 'cc_payment'])` applied to a raw string. -/
def parseTxnType (s : String) : Option TxnType :=
  if s = "expense" then some .expense
  else if s = "income" then some .income
  else if s = "cc_payment" then some .cc_payment
  else none

/-- Category `period` column: `enum: ['weekly', 'monthly']`. -/
inductive Period where
  | weekly
  | monthly
deriving DecidableEq, Repr

/-! ## Calendar arithmetic (JS `Date` semantics at UTC) -/

/-- Gregorian leap-year rule, as implemented by the JS `Date` object. -/
def isLeapYear (y : Nat) : Bool :=
  (y % 4 == 0 && y % 100 != 0) || y % 400 == 0

/-- Number of days of month `m` (1-based) of year `y`; the value of
`new Date(y, m, 0).getDate()` for `1 ≤ m ≤ 12`. -/
def daysInMonth (y m : Nat) : Nat :=
  if m = 2 then (if isLeapYear y then 29 else 28)
  else if m = 4 ∨ m = 6 ∨ m = 9 ∨ m = 11 then 30
  else 31

/-- Numeric value of a decimal digit character. -/
def digitVal (c : Char) : Nat := c.toNat - 48

/-- `^\d{4}-\d{2}-\d{2}$` — the zod regex guarding the `date` field. -/
def isDateShape (s : String) : Bool :=
  match s.data with
  | [y1, y2, y3, y4, h1, m1, m2, h2, d1, d2] =>
    y1.isDigit && y2.isDigit && y3.isDigit && y4.isDigit && h1 == '-' &&
      m1.isDigit && m2.isDigit && h2 == '-' && d1.isDigit && d2.isDigit
  | _ => false

/-- `new Date(s + 'T00:00:00')` on a `YYYY-MM-DD` string: yields the
(year, month, day) components when `s` denotes a real calendar date,
`none` when the constructor would produce an Invalid Date. -/
def parseDate (s : String) : Option (Nat × Nat × Nat) :=
  match s.data with
  | [y1, y2, y3, y4, h1, m1, m2, h2, d1, d2] =>
    if y1.isDigit && y2.isDigit && y3.isDigit && y4.isDigit && h1 == '-' &&
        m1.isDigit && m2.isDigit && h2 == '-' && d1.isDigit && d2.isDigit then
      let y := ((digitVal y1 * 10 + digitVal y2) * 10 + digitVal y3) * 10 + digitVal y4
      let mo := digitVal m1 * 10 + digitVal m2
      let dy := digitVal d1 * 10 + digitVal d2
      if 1 ≤ mo ∧ mo ≤ 12 ∧ 1 ≤ dy ∧ dy ≤ daysInMonth y mo then
        some (y, mo, dy)
      else none
    else none
  | _ => none

/-- Left-pad a number to two digits, as `toISOString` renders months/days. -/
def pad2 (n : Nat) : String :=
  if n < 10 then "0" ++ toString n else toString n

/-- Left-pad a year to four digits, as `toISOString` renders years ≤ 9999. -/
def pad4 (n : Nat) : String :=
  if n < 10 then "000" ++ toString n
  else if n < 100 then "00" ++ toString n
  else if n < 1000 then "0" ++ toString n
  else toString n

/-- `projectDate.toISOString().split('T')[0]` for the date (y, m, d). -/
def fmtDate (y m d : Nat) : String :=
  pad4 y ++ "-" ++ pad2 m ++ "-" ++ pad2 d

/-- Normalised (year, 1-based month) of JS month index `m0 + i` counted from
year `y`; how `new Date(year, month, …)` canonicalises an out-of-range
month argument. -/
def rollMonth (y t : Nat) : Nat × Nat :=
  (y + t / 12, t % 12 + 1)

/-- ECMAScript reads a numeric `Date`-constructor year argument 0..99 as
`1900 + year` (before month normalisation); every other year is taken
verbatim. -/
def jsYear (y : Nat) : Nat :=
  if y ≤ 99 then 1900 + y else y

/-- The date triple of iteration `i` of the recurring loop: target month
`baseMonth + i` (rolled over, after the constructor's 0..99 year mapping),
day clamped by `Math.min(baseDay, lastDayOfMonth)`. -/
def projectDate (y m d i : Nat) : Nat × Nat × Nat :=
  let ym := rollMonth (jsYear y) (m - 1 + i)
  (ym.1, ym.2, min d (daysInMonth ym.1 ym.2))

/-! ## Data model (`server/src/db/schema.ts`, bookkeeping columns omitted) -/

/-- A row of the `transactions` table. -/
structure Txn where
  id : String
  date : String
  amount : ℚ
  categoryId : Option String
  description : String
  type : TxnType
  isFixed : Bool
  groupId : Option String
deriving DecidableEq, Repr

/-- A row of the `categories` table. -/
structure Category where
  id : String
  name : String
  weeklyBudget : ℚ
  period : Period
  color : String
deriving DecidableEq, Repr

/-- A row of the `settings` table. -/
structure SettingsRow where
  id : Nat
  monthlyIncome : ℚ
  currency : String
  showFixedCosts : Bool
  checkingBalance : ℚ
  creditCardBalance : ℚ
  balanceAsOf : String
deriving DecidableEq, Repr

/-- The SQLite database: each table as a list of rows in rowid order. -/
structure Store where
  transactions : List Txn
  categories : List Category
  settings : List SettingsRow
deriving DecidableEq, Repr

/-- Error codes of the REST error taxonomy. -/
inductive ApiErr where
  | validation
  | notFound
  | unknown
deriving DecidableEq, Repr

/-- An HTTP response: either `{success: true, data}` with its status code, or
`{success: false, error: {code}}` with its status code. -/
inductive Resp (α : Type) where
  | ok (status : Nat) (data : α)
  | err (status : Nat) (code : ApiErr)
deriving DecidableEq, Repr

/-- The payload of a successful response (`[]` for an error response). -/
def respData {α : Type} : Resp (List α) → List α
  | .ok _ l => l
  | .err _ _ => []

/-- The HTTP status of a response. -/
def respStatus {α : Type} : Resp α → Nat
  | .ok st _ => st
  | .err st _ => st

/-! ## Request bodies and validation (`zod` schemas) -/

/-- A raw `POST /transactions` body. `categoryId = none` stands for both an
absent and a `null` field (zod's `.nullable().optional()` admits both, and
every later use normalises them identically through `|| null`). -/
structure RawTxnBody where
  date : String
  amount : ℚ
  categoryId : Option String
  description : String
  type : String
  isFixed : Option Bool
  groupId : Option String
deriving DecidableEq, Repr

/-- A draft that passed `transactionSchema` (`isFixed` has its default applied). -/
structure TxnDraft where
  date : String
  amount : ℚ
  categoryId : Option String
  description : String
  type : TxnType
  isFixed : Bool
  groupId : Option String
deriving DecidableEq, Repr

/-- `transactionSchema.safeParse`: date must match `^\d{4}-\d{2}-\d{2}$`,
amount must be positive, description non-empty, type in the enum;
`isFixed` defaults to `false`. -/
def validateTxn (b : RawTxnBody) : Option TxnDraft :=
  match parseTxnType b.type with
  | none => none
  | some ty =>
    if isDateShape b.date ∧ 0 < b.amount ∧ b.description ≠ "" then
      some { date := b.date, amount := b.amount, categoryId := b.categoryId,
             description := b.description, type := ty,
             isFixed := b.isFixed.getD false, groupId := b.groupId }
    else none

/-- A raw `POST /transactions/recurring` body; `months` is an arbitrary JS
number when present. -/
structure RawRecurringBody where
  base : RawTxnBody
  months : Option ℚ
deriving DecidableEq, Repr

/-- `recurringRequestSchema.safeParse`: the base must pass `transactionSchema`
and `months` must be an integer in `1..24`, defaulting to `12` when absent. -/
def validateRecurring (b : RawRecurringBody) : Option (TxnDraft × Nat) :=
  match validateTxn b.base with
  | none => none
  | some dft =>
    match b.months with
    | none => some (dft, 12)
    | some q =>
      if q.den = 1 ∧ 1 ≤ q ∧ q ≤ 24 then some (dft, q.num.toNat) else none

/-- A `transactionUpdateSchema` body (`transactionSchema.partial()`): every
field optional; a `some` marks a field present in the request. -/
structure TxnPatch where
  date : Option String := none
  amount : Option ℚ := none
  categoryId : Option (Option String) := none
  description : Option String := none
  type : Option TxnType := none
  isFixed : Option Bool := none
  groupId : Option (Option String) := none
deriving DecidableEq, Repr

/-- Scope of a group mutation: `z.enum(['all', 'future'])`. -/
inductive Scope where
  | all
  | future
deriving DecidableEq, Repr

/-- Lexicographic comparison of character lists by code point; the order JS
`<` puts on strings (code-unit order, identical on the ASCII date strings
the routes compare). -/
def charListLt : List Char → List Char → Bool
  | [], [] => false
  | [], _ :: _ => true
  | _ :: _, [] => false
  | a :: as, b :: bs =>
    if a.toNat < b.toNat then true
    else if b.toNat < a.toNat then false
    else charListLt as bs

/-- JS `a < b` on strings. -/
def strLt (a b : String) : Bool := charListLt a.data b.data

/-- JS `a >= b` on strings: the negation of `a < b`. -/
def strGe (a b : String) : Bool := !strLt a b

/-- JS `x || null` on an optional string: the empty string and `null`/absent
all collapse to `null`. -/
def orNull (o : Option String) : Option String :=
  match o with
  | some s => if s = "" then none else some s
  | none => none

/-- A dummy transaction used as `List.getD` default in positional statements. -/
def dTxn : Txn :=
  { id := "", date := "", amount := 0, categoryId := none, description := "",
    type := .expense, isFixed := false, groupId := none }

/-! ## `POST /transactions` -/

/-- The row built by the create handler: `{ id, ...parseResult.data,
categoryId: data.categoryId || null, groupId: data.groupId || null }`. -/
def insertRow (id : String) (dft : TxnDraft) : Txn :=
  { id := id, date := dft.date, amount := dft.amount,
    categoryId := orNull dft.categoryId, description := dft.description,
    type := dft.type, isFixed := dft.isFixed, groupId := orNull dft.groupId }

/-- `POST /transactions` handler: validate, insert, read the row back, 201. -/
def createTransaction (id : String) (b : RawTxnBody) (s : Store) :
    Resp (Option Txn) × Store :=
  match validateTxn b with
  | none => (.err 400 .validation, s)
  | some dft =>
    let t := insertRow id dft
    let txns := s.transactions ++ [t]
    (.ok 201 (txns.find? fun r => decide (r.id = id)),
     { s with transactions := txns })

/-! ## `POST /transactions/recurring` -/

/-- The row inserted at iteration `p.1` of the recurring loop, with id `p.2`:
`{ id, ...base, date: projectDate.toISOString().split('T')[0],
categoryId: base.categoryId || null, groupId, isFixed: true }`. -/
def mkRecurTxn (gid : String) (base : TxnDraft) (y m d : Nat)
    (p : Nat × String) : Txn :=
  let pd := projectDate y m d p.1
  { id := p.2, date := fmtDate pd.1 pd.2.1 pd.2.2, amount := base.amount,
    categoryId := orNull base.categoryId, description := base.description,
    type := base.type, isFixed := true, groupId := some gid }

/-- The recurring `for` loop: insert a row per iteration, read it back by id,
and push the row found onto the `createdTransactions` accumulator. -/
def recurLoop (gid : String) (base : TxnDraft) (y m d : Nat) :
    List (Nat × String) → List Txn → List Txn → List Txn × List Txn
  | [], txns, acc => (txns, acc)
  | p :: rest, txns, acc =>
    let t := mkRecurTxn gid base y m d p
    let txns1 := txns ++ [t]
    let acc1 :=
      match txns1.find? (fun r => decide (r.id = p.2)) with
      | some c => acc ++ [c]
      | none => acc
    recurLoop gid base y m d rest txns1 acc1

/-- `POST /transactions/recurring` handler. `gid` is the
`crypto.randomUUID()` group id generated once per call; `ids` supplies the
per-iteration row UUIDs. A base whose date string passes the regex but is
not a real calendar date makes `new Date` produce an Invalid Date and the
handler fault; this is modelled as a 500 `UNKNOWN_ERROR`. -/
def createRecurring (gid : String) (ids : List String)
    (b : RawRecurringBody) (s : Store) : Resp (List Txn) × Store :=
  match validateRecurring b with
  | none => (.err 400 .validation, s)
  | some (base, months) =>
    match parseDate base.date with
    | none => (.err 500 .unknown, s)
    | some (y, m, d) =>
      let r := recurLoop gid base y m d
        ((List.range months).map fun i => (i, ids.getD i "")) s.transactions []
      (.ok 201 r.2, { s with transactions := r.1 })

/-- The transaction generated at iteration `i` (pure form of one loop step). -/
def recurTxnAt (gid : String) (base : TxnDraft) (y m d : Nat)
    (ids : List String) (i : Nat) : Txn :=
  mkRecurTxn gid base y m d (i, ids.getD i "")

/-- One `db.update(...).set({...updates, date: tx.date, updatedAt})` write:
each present patch field is applied, but `date` is unconditionally taken
from the matched group member `tx` (its pre-update date), never from the
patch. -/
def applySet (r : Txn) (u : TxnPatch) (dateVal : String) : Txn :=
  { id := r.id, date := dateVal, amount := u.amount.getD r.amount,
    categoryId := u.categoryId.getD r.categoryId,
    description := u.description.getD r.description,
    type := u.type.getD r.type, isFixed := u.isFixed.getD r.isFixed,
    groupId := u.groupId.getD r.groupId }

/-- `db.update(schema.transactions).set(…).where(eq(transactions.id, id))`. -/
def dbUpdateById (txns : List Txn) (id : String) (f : Txn → Txn) : List Txn :=
  txns.map fun r => if r.id = id then f r else r

/-- The scope filter of the group handlers: scope `all` selects every group
member, scope `future` selects the members with `t.date >= fromDate`
(and nothing when `fromDate` is absent, since `fromDate && …` is falsy). -/
def scopeSelect (scope : Scope) (fromDate : Option String)
    (members : List Txn) : List Txn :=
  match scope with
  | .all => members
  | .future =>
    members.filter fun t =>
      match fromDate with
      | some fd => strGe t.date fd
      | none => false

/-- `PUT /transactions/group/:groupId` handler (body already past
`groupUpdateSchema`; a malformed body only yields a 400 with the store
untouched). Looks up the group, 404s when empty, applies the patch to the
scope-selected members one `db.update` at a time, then responds with a
fresh `select` of every transaction whose `groupId` still matches. -/
def updateGroup (gid : String) (u : TxnPatch) (scope : Scope)
    (fromDate : Option String) (s : Store) : Resp (List Txn) × Store :=
  let members := s.transactions.filter fun t => decide (t.groupId = some gid)
  if members.isEmpty then (.err 404 .notFound, s)
  else
    let toUpdate := scopeSelect scope fromDate members
    let txns := toUpdate.foldl
      (fun acc tx => dbUpdateById acc tx.id fun r => applySet r u tx.date)
      s.transactions
    (.ok 200 (txns.filter fun t => decide (t.groupId = some gid)),
     { s with transactions := txns })

/-! ## `DELETE /transactions/group/:groupId` -/

/-- The default settings row inserted on first access; `now` models
`new Date().toISOString()`. -/
def defaultSettings (now : String) : SettingsRow :=
  { id := 1, monthlyIncome := 8000, currency := "$", showFixedCosts := true,
    checkingBalance := 0, creditCardBalance := 0, balanceAsOf := now }

/-- A raw `PUT /settings` body (`settingsUpdateSchema`): all fields optional. -/
structure SettingsPatch where
  monthlyIncome : Option ℚ := none
  currency : Option String := none
  showFixedCosts : Option Bool := none
  checkingBalance : Option ℚ := none
  creditCardBalance : Option ℚ := none
  balanceAsOf : Option String := none
deriving DecidableEq, Repr

/-- `settingsUpdateSchema.safeParse`: `monthlyIncome` must be ≥ 0 and
`currency` non-empty when present. -/
def validateSettingsPatch (p : SettingsPatch) : Bool :=
  (match p.monthlyIncome with | some v => decide (0 ≤ v) | none => true) &&
  (match p.currency with | some c => !decide (c = "") | none => true)

/-- `db.update(settings).set({...patch, updatedAt}).where(id = 1)` applied to
row `r`. -/
def applySettingsPatch (p : SettingsPatch) (r : SettingsRow) : SettingsRow :=
  { id := r.id, monthlyIncome := p.monthlyIncome.getD r.monthlyIncome,
    currency := p.currency.getD r.currency,
    showFixedCosts := p.showFixedCosts.getD r.showFixedCosts,
    checkingBalance := p.checkingBalance.getD r.checkingBalance,
    creditCardBalance := p.creditCardBalance.getD r.creditCardBalance,
    balanceAsOf := p.balanceAsOf.getD r.balanceAsOf }

/-- `GET /settings` handler: read the id-1 row, lazily inserting the default
row when absent. -/
def getSettings (now : String) (s : Store) :
    Resp (Option SettingsRow) × Store :=
  match s.settings.find? (fun r => decide (r.id = 1)) with
  | some st => (.ok 200 (some st), s)
  | none =>
    let rows := s.settings ++ [defaultSettings now]
    (.ok 200 (rows.find? fun r => decide (r.id = 1)),
     { s with settings := rows })

/-- `PUT /settings` handler: validate, lazily insert the default row when the
id-1 row is absent, then update the id-1 row with the patch. -/
def updateSettings (now : String) (p : SettingsPatch) (s : Store) :
    Resp (Option SettingsRow) × Store :=
  if validateSettingsPatch p then
    let rows0 :=
      match s.settings.find? (fun r => decide (r.id = 1)) with
      | some _ => s.settings
      | none => s.settings ++ [defaultSettings now]
    let rows := rows0.map fun r => if r.id = 1 then applySettingsPatch p r else r
    (.ok 200 (rows.find? fun r => decide (r.id = 1)), { s with settings := rows })
  else (.err 400 .validation, s)

/-! ## `GET /migrate/export` and `POST /migrate/import` -/

/-- The `data` object of `GET /migrate/export`: every category row, every
transaction row, and the id-1 settings row (absent when never created).
The `exportedAt` timestamp is omitted — the import route ignores it. -/
structure ExportPayload where
  categories : List Category
  transactions : List Txn
  settings : Option SettingsRow
deriving DecidableEq, Repr

/-- `GET /migrate/export` handler (read-only). -/
def exportPayload (s : Store) : ExportPayload :=
  { categories := s.categories, transactions := s.transactions,
    settings := s.settings.find? fun r => decide (r.id = 1) }

/-- `importSchema` applied to a re-imported export payload. A database row
serialises its NULL columns as JSON `null`, and the import-side transaction
schema demands `categoryId: z.string()` and `groupId: z.string().optional()`,
both of which reject `null` — so a transaction row passes validation exactly
when those columns are non-null. The required `settings` object rejects a
payload exported before the settings row existed. -/
def importValid (p : ExportPayload) : Bool :=
  p.settings.isSome &&
    p.transactions.all fun t => t.categoryId.isSome && t.groupId.isSome

/-- The row written by the import loop for transaction `t`:
`{...transaction, categoryId: t.categoryId || null, groupId: t.groupId || null,
isFixed: t.isFixed || false}`. -/
def importTxnRow (t : Txn) : Txn :=
  { t with categoryId := orNull t.categoryId, groupId := orNull t.groupId }

/-- The settings content written by the import handler:
`checkingBalance || 0`, `creditCardBalance || 0`, `balanceAsOf || now`
(JS `||`, so a zero balance and an empty timestamp fall back). -/
def importSettingsRow (now : String) (st r : SettingsRow) : SettingsRow :=
  { id := r.id, monthlyIncome := st.monthlyIncome, currency := st.currency,
    showFixedCosts := st.showFixedCosts,
    checkingBalance := if st.checkingBalance = 0 then 0 else st.checkingBalance,
    creditCardBalance :=
      if st.creditCardBalance = 0 then 0 else st.creditCardBalance,
    balanceAsOf := if st.balanceAsOf = "" then now else st.balanceAsOf }

/-- The result counters of `POST /migrate/import`. -/
structure ImportResult where
  categoriesImported : Nat
  transactionsImported : Nat
  settingsUpdated : Bool
deriving DecidableEq, Repr

/-- The category import loop: skip ids that already exist, insert the rest. -/
def importCats (cats : List Category) (acc : List Category × Nat) :
    List Category × Nat :=
  cats.foldl
    (fun acc c =>
      match acc.1.find? (fun r => decide (r.id = c.id)) with
      | some _ => acc
      | none => (acc.1 ++ [c], acc.2 + 1))
    acc

/-- The transaction import loop: skip ids that already exist, insert the rest
through `importTxnRow`. -/
def importTxns (txs : List Txn) (acc : List Txn × Nat) : List Txn × Nat :=
  txs.foldl
    (fun acc t =>
      match acc.1.find? (fun r => decide (r.id = t.id)) with
      | some _ => acc
      | none => (acc.1 ++ [importTxnRow t], acc.2 + 1))
    acc

/-- `POST /migrate/import` handler applied to a payload of the export shape:
validate, merge categories and transactions by id, then update the id-1
settings row (inserting it when absent). -/
def importData (now : String) (p : ExportPayload) (s : Store) :
    Resp ImportResult × Store :=
  match p.settings with
  | none => (.err 400 .validation, s)
  | some st =>
    if p.transactions.all (fun t => t.categoryId.isSome && t.groupId.isSome) then
      let cats := importCats p.categories (s.categories, 0)
      let txs := importTxns p.transactions (s.transactions, 0)
      let rows :=
        match s.settings.find? (fun r => decide (r.id = 1)) with
        | some _ =>
          s.settings.map fun r => if r.id = 1 then importSettingsRow now st r else r
        | none => s.settings ++ [importSettingsRow now st (defaultSettings now)]
      (.ok 200 { categoriesImported := cats.2, transactionsImported := txs.2,
                 settingsUpdated := true },
       { transactions := txs.1, categories := cats.1, settings := rows })
    else (.err 400 .validation, s)

/-! ## Helper lemmas -/

/-- The store side of the recurring loop is a plain append of the generated
rows, whatever the read-back lookups return. -/
theorem recurLoop_fst (gid : String) (base : TxnDraft) (y m d : Nat)
    (ps : List (Nat × String)) (txns acc : List Txn) :
    (recurLoop gid base y m d ps txns acc).1 =
      txns ++ ps.map (mkRecurTxn gid base y m d) := by
  induction ps generalizing txns acc with
  | nil => simp [recurLoop]
  | cons p rest ih => simp [recurLoop, ih]

/-- Every iteration of the recurring loop pushes exactly one row onto the
`createdTransactions` accumulator: the freshly inserted row is always found
by the read-back `select`. -/
theorem recurLoop_snd_length (gid : String) (base : TxnDraft) (y m d : Nat)
    (ps : List (Nat × String)) (txns acc : List Txn) :
    (recurLoop gid base y m d ps txns acc).2.length = acc.length + ps.length := by
  induction ps generalizing txns acc with
  | nil => simp [recurLoop]
  | cons p rest ih =>
    have hmem : mkRecurTxn gid base y m d p ∈ txns ++ [mkRecurTxn gid base y m d p] := by
      simp
    have hsome : ((txns ++ [mkRecurTxn gid base y m d p]).find?
        (fun r => decide (r.id = p.2))).isSome := by
      rw [List.find?_isSome]
      exact ⟨_, hmem, by simp [mkRecurTxn]⟩
    match hf : (txns ++ [mkRecurTxn gid base y m d p]).find?
        (fun r => decide (r.id = p.2)) with
    | some c => simp [recurLoop, hf, ih]; omega
    | none => rw [hf] at hsome; simp at hsome

/-- Elements of a list whose mapped ids are nodup are determined by their id. -/
theorem eq_of_mem_of_id_eq {l : List Txn} (hnd : (l.map Txn.id).Nodup)
    {a b : Txn} (ha : a ∈ l) (hb : b ∈ l) (h : a.id = b.id) : a = b :=
  List.inj_on_of_nodup_map hnd ha hb h

/-- `applySet` never touches the row id. -/
theorem applySet_id (r : Txn) (u : TxnPatch) (dv : String) :
    (applySet r u dv).id = r.id := rfl

/-- The sequential `db.update` loop of the group-update handler, on a table
with pairwise-distinct ids and a selection drawn from that table, rewrites
each selected row through `applySet` (with its own date) in place and leaves
every other row unchanged. -/
theorem updateFold_eq (u : TxnPatch) (toU txns : List Txn)
    (hnd : (txns.map Txn.id).Nodup)
    (hsub : ∀ tx ∈ toU, tx ∈ txns)
    (hndU : (toU.map Txn.id).Nodup) :
    toU.foldl (fun acc tx => dbUpdateById acc tx.id fun r => applySet r u tx.date)
        txns =
      txns.map fun r => if r ∈ toU then applySet r u r.date else r := by
  induction toU generalizing txns with
  | nil =>
    simp only [List.foldl_nil]
    rw [List.map_congr_left fun r _ => if_neg (List.not_mem_nil r)]
    simp
  | cons tx rest ih =>
    rw [List.map_cons, List.nodup_cons] at hndU
    have htx : tx ∈ txns := hsub tx (by simp)
    -- the first update, rephrased as an elementwise test against `tx`
    have hstep : dbUpdateById txns tx.id (fun r => applySet r u tx.date) =
        txns.map fun r => if r = tx then applySet r u r.date else r := by
      unfold dbUpdateById
      refine List.map_congr_left fun r hr => ?_
      by_cases hid : r.id = tx.id
      · have : r = tx := eq_of_mem_of_id_eq hnd hr htx hid
        subst this
        simp
      · have : ¬ r = tx := fun hc => hid (hc ▸ rfl)
        simp [hid, this]
    rw [List.foldl_cons, hstep]
    have hids : ((txns.map fun r => if r = tx then applySet r u r.date else r).map
        Txn.id) = txns.map Txn.id := by
      rw [List.map_map]
      refine List.map_congr_left fun r _ => ?_
      by_cases hr : r = tx <;> simp [hr, applySet_id]
    have hsub2 : ∀ t ∈ rest, t ∈ txns.map fun r => if r = tx then applySet r u r.date else r := by
      intro t ht
      have htmem : t ∈ txns := hsub t (by simp [ht])
      have hne : ¬ t = tx := by
        intro hc
        exact hndU.1 (hc ▸ List.mem_map_of_mem Txn.id ht)
      exact List.mem_map.2 ⟨t, htmem, by simp [hne]⟩
    have := ih (txns.map fun r => if r = tx then applySet r u r.date else r)
      (hids ▸ hnd) hsub2 hndU.2
    rw [this, List.map_map]
    refine List.map_congr_left fun r hr => ?_
    by_cases hrtx : r = tx
    · subst hrtx
      have hnotin : applySet r u r.date ∉ rest := by
        intro hc
        exact hndU.1 (applySet_id r u r.date ▸ List.mem_map_of_mem Txn.id hc)
      simp [Function.comp, hnotin]
    · by_cases hrrest : r ∈ rest <;>
        simp [Function.comp, hrtx, hrrest, List.mem_cons]

/-- When every category id of the import payload already exists in the table,
the category import loop inserts nothing and counts nothing. -/
theorem importCats_skip (cs : List Category) (l : List Category) (n : Nat)
    (h : ∀ c ∈ cs, ∃ r ∈ l, r.id = c.id) :
    importCats cs (l, n) = (l, n) := by
  induction cs with
  | nil => rfl
  | cons c rest ih =>
    have hsome : (l.find? fun r => decide (r.id = c.id)).isSome := by
      rw [List.find?_isSome]
      obtain ⟨r, hr, hid⟩ := h c (by simp)
      exact ⟨r, hr, by simp [hid]⟩
    match hf : l.find? fun r => decide (r.id = c.id) with
    | some r =>
      simp only [importCats, List.foldl_cons, hf]
      exact ih fun c hc => h c (by simp [hc])
    | none => rw [hf] at hsome; simp at hsome

/-- When every transaction id of the import payload already exists in the
table, the transaction import loop inserts nothing and counts nothing. -/
theorem importTxns_skip (ts : List Txn) (l : List Txn) (n : Nat)
    (h : ∀ t ∈ ts, ∃ r ∈ l, r.id = t.id) :
    importTxns ts (l, n) = (l, n) := by
  induction ts with
  | nil => rfl
  | cons t rest ih =>
    have hsome : (l.find? fun r => decide (r.id = t.id)).isSome := by
      rw [List.find?_isSome]
      obtain ⟨r, hr, hid⟩ := h t (by simp)
      exact ⟨r, hr, by simp [hid]⟩
    match hf : l.find? fun r => decide (r.id = t.id) with
    | some r =>
      simp only [importTxns, List.foldl_cons, hf]
      exact ih fun t ht => h t (by simp [ht])
    | none => rw [hf] at hsome; simp at hsome

/-! ## Concrete fixtures -/

/-- The empty database. -/
def emptyStore : Store := { transactions := [], categories := [], settings := [] }

/-- The recurring request of the spec scenario: base
`{date: "2025-01-31", amount: 1200, categoryId: "fixed", type: "expense"}`
(with a non-empty description, required by `transactionSchema`), 3 months. -/
def scenarioBody : RawRecurringBody :=
  { base := { date := "2025-01-31", amount := 1200, categoryId := some "fixed",
              description := "rent", type := "expense", isFixed := none,
              groupId := none },
    months := some 3 }

/-- The draft `scenarioBody.base` parses to under `transactionSchema`. -/
def scenarioDraft : TxnDraft :=
  { date := "2025-01-31", amount := 1200, categoryId := some "fixed",
    description := "rent", type := .expense, isFixed := false,
    groupId := none }

/-- The leap-year variant of the scenario: base dated `2024-01-31`. -/
def scenarioBodyLeap : RawRecurringBody :=
  { base := { date := "2024-01-31", amount := 1200, categoryId := some "fixed",
              description := "rent", type := "expense", isFixed := none,
              groupId := none },
    months := some 2 }

/-! ## Claims -/

/-- C2. For the concrete base `{date: "2025-01-31", amount: 1200,
categoryId: "fixed", type: "expense"}` with `months = 3`, the recurrence
generator emits transactions dated exactly `2025-01-31`, `2025-02-28`,
`2025-03-31`, all `isFixed = true` with one shared `groupId`; and for a base
dated `2024-01-31`, the transaction at month index 1 is dated `2024-02-29`. -/
theorem recurring_scenario_clamps_month_end :
    (respData (createRecurring "g" ["a", "b", "c"] scenarioBody emptyStore).1).map
        Txn.date = ["2025-01-31", "2025-02-28", "2025-03-31"] ∧
    (respData (createRecurring "g" ["a", "b", "c"] scenarioBody emptyStore).1).map
        Txn.isFixed = [true, true, true] ∧
    (respData (createRecurring "g" ["a", "b", "c"] scenarioBody emptyStore).1).map
        Txn.groupId = [some "g", some "g", some "g"] ∧
    ((respData (createRecurring "g" ["a", "b"] scenarioBodyLeap emptyStore).1).getD
        1 dTxn).date = "2024-02-29" := by
  decide

/-- The scope filter only ever narrows the member list. -/
theorem scopeSelect_sublist (scope : Scope) (fromDate : Option String)
    (members : List Txn) : (scopeSelect scope fromDate members).Sublist members := by
  cases scope with
  | all => exact List.Sublist.refl members
  | future => exact List.filter_sublist members

/-- The scope-selected rows are group members drawn from the table. -/
theorem scopeSelect_mem {scope : Scope} {fromDate : Option String}
    {members : List Txn} {tx : Txn}
    (h : tx ∈ scopeSelect scope fromDate members) : tx ∈ members :=
  (scopeSelect_sublist scope fromDate members).mem h

/-- The table after a group update: each scope-selected member is rewritten
in place through `applySet` with its own date, every other row is unchanged
(assuming the table's primary keys are distinct, as SQLite guarantees). -/
theorem updateGroup_txns_char
    (gid : String) (u : TxnPatch) (scope : Scope) (fromDate : Option String)
    (s : Store)
    (hnd : (s.transactions.map Txn.id).Nodup)
    (hex : s.transactions.filter (fun t => decide (t.groupId = some gid)) ≠ []) :
    (updateGroup gid u scope fromDate s).2.transactions =
      s.transactions.map fun r =>
        if r ∈ scopeSelect scope fromDate
            (s.transactions.filter fun t => decide (t.groupId = some gid)) then
          applySet r u r.date
        else r := by
  have hne : (s.transactions.filter
      (fun t => decide (t.groupId = some gid))).isEmpty = false :=
    Bool.eq_false_iff.2 fun h => hex (List.isEmpty_iff.1 h)
  have hsub : ∀ tx ∈ scopeSelect scope fromDate
      (s.transactions.filter fun t => decide (t.groupId = some gid)),
      tx ∈ s.transactions := fun tx htx =>
    List.mem_of_mem_filter (scopeSelect_mem htx)
  have hndU : ((scopeSelect scope fromDate
      (s.transactions.filter fun t => decide (t.groupId = some gid))).map
        Txn.id).Nodup :=
    hnd.sublist (((scopeSelect_sublist scope fromDate _).trans
      (List.filter_sublist s.transactions)).map Txn.id)
  simp only [updateGroup, hne, Bool.false_eq_true, if_false]
  exact updateFold_eq u _ s.transactions hnd hsub hndU

/-- C3. For every existing group, `PUT /transactions/group/:groupId` never
overwrites any row's `date` (even when the patch contains one); with scope
`all` the patch (minus `date`) is applied uniformly to every member and
nothing else changes; with scope `future` and `fromDate = x`, every row
with `date < x` is left completely unchanged. -/
theorem groupUpdate_preserves_dates
    (gid : String) (u : TxnPatch) (scope : Scope) (fromDate : Option String)
    (s : Store)
    (hnd : (s.transactions.map Txn.id).Nodup)
    (hex : s.transactions.filter (fun t => decide (t.groupId = some gid)) ≠ []) :
    ((updateGroup gid u scope fromDate s).2.transactions.map Txn.date =
      s.transactions.map Txn.date) ∧
    (scope = .all →
      (updateGroup gid u scope fromDate s).2.transactions =
        s.transactions.map fun r =>
          if r.groupId = some gid then applySet r u r.date else r) ∧
    (∀ x : String, scope = .future → fromDate = some x →
      ∀ (i : Nat) (r : Txn), s.transactions[i]? = some r → strLt r.date x = true →
        (updateGroup gid u scope fromDate s).2.transactions[i]? = some r) := by
  have hchar := updateGroup_txns_char gid u scope fromDate s hnd hex
  refine ⟨?_, ?_, ?_⟩
  · rw [hchar, List.map_map]
    refine List.map_congr_left fun r _ => ?_
    by_cases h : r ∈ scopeSelect scope fromDate
      (s.transactions.filter fun t => decide (t.groupId = some gid)) <;>
      simp [Function.comp, h, applySet]
  · intro hall
    subst hall
    rw [hchar]
    refine List.map_congr_left fun r hr => ?_
    have : r ∈ scopeSelect .all fromDate
        (s.transactions.filter fun t => decide (t.groupId = some gid)) ↔
        r.groupId = some gid := by
      simp [scopeSelect, List.mem_filter, hr]
    by_cases hg : r.groupId = some gid
    · rw [if_pos (this.2 hg), if_pos hg]
    · rw [if_neg fun hc => hg (this.1 hc), if_neg hg]
  · intro x hfut hfd i r hir hlt
    subst hfut
    subst hfd
    rw [hchar, List.getElem?_map, hir]
    have hnot : r ∉ scopeSelect .future (some x)
        (s.transactions.filter fun t => decide (t.groupId = some gid)) := by
      intro hc
      have hge := (List.mem_filter.1 hc).2
      simp only [strGe, hlt, Bool.not_true] at hge
      cases hge
    simp [hnot]

/-- A fixed 50-euro January instance of group `g`. -/
def txnA : Txn :=
  { id := "a", date := "2025-01-15", amount := 50, categoryId := some "food",
    description := "gym", type := .expense, isFixed := true,
    groupId := some "g" }

/-- The February instance of group `g`. -/
def txnB : Txn :=
  { id := "b", date := "2025-02-15", amount := 50, categoryId := some "food",
    description := "gym", type := .expense, isFixed := true,
    groupId := some "g" }

/-- A store holding the two-member group `g`. -/
def groupStore : Store :=
  { transactions := [txnA, txnB], categories := [], settings := [] }

/-- Witness for C3: a future-scoped amount patch on `groupStore` from
`2025-02-01` keeps every date and leaves the January row untouched. -/
theorem groupUpdate_preserves_dates_witness :
    ((updateGroup "g" { amount := some 60 } .future (some "2025-02-01")
        groupStore).2.transactions.map Txn.date =
      groupStore.transactions.map Txn.date) ∧
    (updateGroup "g" { amount := some 60 } .future (some "2025-02-01")
        groupStore).2.transactions[0]? = some txnA := by
  have h := groupUpdate_preserves_dates "g" { amount := some 60 } .future
    (some "2025-02-01") groupStore (by decide) (by decide)
  exact ⟨h.1, h.2.2 "2025-02-01" rfl rfl 0 txnA (by decide) (by decide)⟩

/-- C5 counterexample. A future-scoped update of the two-member group `g`
from `2025-02-01` selects only the February row, yet the response carries
the untouched January row as well: the returned list is not the list of
affected transactions. -/
theorem groupUpdate_response_not_only_affected :
    respData (updateGroup "g" { description := some "coach" } .future
        (some "2025-02-01") groupStore).1 =
      [txnA, applySet txnB { description := some "coach" } txnB.date] ∧
    scopeSelect .future (some "2025-02-01")
        (groupStore.transactions.filter fun t => decide (t.groupId = some "g")) =
      [txnB] ∧
    txnA ∉ scopeSelect .future (some "2025-02-01")
        (groupStore.transactions.filter fun t => decide (t.groupId = some "g")) ∧
    respData (updateGroup "g" { description := some "coach" } .future
        (some "2025-02-01") groupStore).1 ≠
      [applySet txnB { description := some "coach" } txnB.date] := by
  decide

/-- C5 amended. For every existing group (with distinct primary keys), the
group update responds with the full post-update member list of the group —
every member the scope left unaffected is returned unchanged alongside the
patched ones — not merely the affected subset. -/
theorem groupUpdate_returns_full_group
    (gid : String) (u : TxnPatch) (scope : Scope) (fromDate : Option String)
    (s : Store)
    (hnd : (s.transactions.map Txn.id).Nodup)
    (hex : s.transactions.filter (fun t => decide (t.groupId = some gid)) ≠ []) :
    (updateGroup gid u scope fromDate s).1 =
      .ok 200 ((updateGroup gid u scope fromDate s).2.transactions.filter
        fun t => decide (t.groupId = some gid)) ∧
    (∀ r ∈ s.transactions, r.groupId = some gid →
      r ∉ scopeSelect scope fromDate
        (s.transactions.filter fun t => decide (t.groupId = some gid)) →
      r ∈ respData (updateGroup gid u scope fromDate s).1) := by
  have hne : (s.transactions.filter
      (fun t => decide (t.groupId = some gid))).isEmpty = false :=
    Bool.eq_false_iff.2 fun h => hex (List.isEmpty_iff.1 h)
  have hchar := updateGroup_txns_char gid u scope fromDate s hnd hex
  constructor
  · simp only [updateGroup, hne, Bool.false_eq_true, if_false]
  · intro r hr hgrp hnot
    have hmem : r ∈ (updateGroup gid u scope fromDate s).2.transactions := by
      rw [hchar]
      exact List.mem_map.2 ⟨r, hr, by rw [if_neg hnot]⟩
    have : (updateGroup gid u scope fromDate s).1 =
        .ok 200 ((updateGroup gid u scope fromDate s).2.transactions.filter
          fun t => decide (t.groupId = some gid)) := by
      simp only [updateGroup, hne, Bool.false_eq_true, if_false]
    rw [this]
    exact List.mem_filter.2 ⟨hmem, by simp [hgrp]⟩

/-- Witness for the amended C5: the unaffected January row of `groupStore`
appears in the response of a future-scoped description patch. -/
theorem groupUpdate_returns_full_group_witness :
    (updateGroup "g" { description := some "coach" } .future (some "2025-02-01")
        groupStore).1 =
      .ok 200 ((updateGroup "g" { description := some "coach" } .future
          (some "2025-02-01") groupStore).2.transactions.filter
        fun t => decide (t.groupId = some "g")) ∧
    txnA ∈ respData (updateGroup "g" { description := some "coach" } .future
        (some "2025-02-01") groupStore).1 := by
  have h := groupUpdate_returns_full_group "g" { description := some "coach" }
    .future (some "2025-02-01") groupStore (by decide) (by decide)
  exact ⟨h.1, h.2 txnA (by decide) (by decide) (by decide)⟩

/-- A perfectly schema-valid create body carrying `isFixed: true` and no
`groupId`. -/
def fixedNoGroupBody : RawTxnBody :=
  { date := "2025-03-01", amount := 20, categoryId := none,
    description := "streaming", type := "expense", isFixed := some true,
    groupId := none }

/-- C6 counterexample. `POST /transactions` happily persists a transaction
with `isFixed = true` and `groupId = null`, so the claimed invariant fails
in a state reachable with a single API call from the empty store. -/
theorem create_breaks_fixed_group_invariant :
    respStatus (createTransaction "i1" fixedNoGroupBody emptyStore).1 = 201 ∧
    (createTransaction "i1" fixedNoGroupBody emptyStore).2.transactions.map
      Txn.isFixed = [true] ∧
    (createTransaction "i1" fixedNoGroupBody emptyStore).2.transactions.map
      Txn.groupId = [none] := by
  decide

/-- C6 amended. The recurring endpoint itself honours the invariant: every
row it adds has `isFixed = true` and the call's non-null `groupId`, and it
preserves "isFixed implies non-null groupId" across the whole store; the
single create/update, group update and import operations do not enforce
the invariant. -/
theorem recurring_preserves_fixed_group_invariant
    (gid : String) (ids : List String) (b : RawRecurringBody) (s : Store)
    (hInv : ∀ t ∈ s.transactions, t.isFixed = true → t.groupId.isSome) :
    (∀ t ∈ (createRecurring gid ids b s).2.transactions,
      t.isFixed = true → t.groupId.isSome) ∧
    (∀ t ∈ (createRecurring gid ids b s).2.transactions,
      t ∉ s.transactions → t.isFixed = true ∧ t.groupId = some gid) := by
  rcases hv : validateRecurring b with _ | ⟨base, months⟩
  · constructor
    · intro t ht
      simp only [createRecurring, hv] at ht
      exact hInv t ht
    · intro t ht hnot
      simp only [createRecurring, hv] at ht
      exact absurd ht hnot
  · rcases hp : parseDate base.date with _ | ⟨y, m, d⟩
    · constructor
      · intro t ht
        simp only [createRecurring, hv, hp] at ht
        exact hInv t ht
      · intro t ht hnot
        simp only [createRecurring, hv, hp] at ht
        exact absurd ht hnot
    · have htx : (createRecurring gid ids b s).2.transactions =
          s.transactions ++
            ((List.range months).map fun i => (i, ids.getD i "")).map
              (mkRecurTxn gid base y m d) := by
        simp only [createRecurring, hv, hp, recurLoop_fst]
      constructor
      · intro t ht _
        rw [htx] at ht
        rcases List.mem_append.1 ht with h | h
        · exact hInv t h (by assumption)
        · obtain ⟨p, _, rfl⟩ := List.mem_map.1 h
          simp [mkRecurTxn]
      · intro t ht hnot
        rw [htx] at ht
        rcases List.mem_append.1 ht with h | h
        · exact absurd h hnot
        · obtain ⟨p, _, rfl⟩ := List.mem_map.1 h
          simp [mkRecurTxn]

/-- Witness for the amended C6: the first row generated for the scenario
request is fixed and carries group id `g`. -/
theorem recurring_preserves_fixed_group_invariant_witness :
    (recurTxnAt "g" scenarioDraft 2025 1 31 ["a", "b", "c"] 0).isFixed = true ∧
    (recurTxnAt "g" scenarioDraft 2025 1 31 ["a", "b", "c"] 0).groupId =
      some "g" := by
  have h := recurring_preserves_fixed_group_invariant "g" ["a", "b", "c"]
    scenarioBody emptyStore (by decide)
  exact h.2 (recurTxnAt "g" scenarioDraft 2025 1 31 ["a", "b", "c"] 0)
    (by decide) (by decide)

/-- The enum check succeeds exactly on the three transaction type strings. -/
theorem parseTxnType_isSome_iff (s : String) :
    (parseTxnType s).isSome = true ↔
      s = "expense" ∨ s = "income" ∨ s = "cc_payment" := by
  unfold parseTxnType
  by_cases h1 : s = "expense"
  · simp [h1]
  · by_cases h2 : s = "income"
    · simp [h1, h2]
    · by_cases h3 : s = "cc_payment"
      · simp [h1, h2, h3]
      · simp [h1, h2, h3]

/-- C8. `POST /transactions` persists a new row and answers 201 exactly when
the body passes validation; every invalid body gets a 400
`VALIDATION_ERROR` and leaves the store untouched; and passing validation
is equivalent to the date matching `YYYY-MM-DD`, the amount being strictly
positive, the description non-empty and the type in the enum. The row id is
the fresh UUID generated for the call. -/
theorem create_validates_and_persists
    (id : String) (b : RawTxnBody) (s : Store)
    (hfresh : ∀ r ∈ s.transactions, r.id ≠ id) :
    (∀ dft : TxnDraft, validateTxn b = some dft →
      createTransaction id b s =
        (.ok 201 (some (insertRow id dft)),
         { s with transactions := s.transactions ++ [insertRow id dft] })) ∧
    (validateTxn b = none →
      createTransaction id b s = (.err 400 .validation, s)) ∧
    ((validateTxn b).isSome = true ↔
      (isDateShape b.date = true ∧ 0 < b.amount ∧ b.description ≠ "" ∧
        (b.type = "expense" ∨ b.type = "income" ∨ b.type = "cc_payment"))) := by
  refine ⟨?_, ?_, ?_⟩
  · intro dft hv
    have hnone : s.transactions.find? (fun r => decide (r.id = id)) = none := by
      rw [List.find?_eq_none]
      intro r hr
      simp [hfresh r hr]
    have hfind : (s.transactions ++ [insertRow id dft]).find?
        (fun r => decide (r.id = id)) = some (insertRow id dft) := by
      simp [List.find?_append, hnone, insertRow]
    simp only [createTransaction, hv, hfind]
  · intro hv
    simp only [createTransaction, hv]
  · constructor
    · intro h
      rcases hty : parseTxnType b.type with _ | ty
      · simp only [validateTxn, hty, Option.isSome_none] at h
        cases h
      · simp only [validateTxn, hty] at h
        by_cases hc : (isDateShape b.date = true ∧ 0 < b.amount ∧
            b.description ≠ "")
        · exact ⟨hc.1, hc.2.1, hc.2.2,
            (parseTxnType_isSome_iff b.type).1 (by rw [hty]; rfl)⟩
        · rw [if_neg hc] at h
          cases h
    · rintro ⟨h1, h2, h3, h4⟩
      have hsome : (parseTxnType b.type).isSome = true :=
        (parseTxnType_isSome_iff b.type).2 h4
      rcases hty : parseTxnType b.type with _ | ty
      · rw [hty] at hsome
        cases hsome
      · simp [validateTxn, hty, h1, h2, h3]

/-- The draft `fixedNoGroupBody` parses to. -/
def fixedNoGroupDraft : TxnDraft :=
  { date := "2025-03-01", amount := 20, categoryId := none,
    description := "streaming", type := .expense, isFixed := true,
    groupId := none }

/-- Witness for C8: a valid body on the empty store is persisted with 201. -/
theorem create_validates_and_persists_witness :
    createTransaction "w8" fixedNoGroupBody emptyStore =
      (.ok 201 (some (insertRow "w8" fixedNoGroupDraft)),
       { emptyStore with transactions :=
          emptyStore.transactions ++ [insertRow "w8" fixedNoGroupDraft] }) := by
  have h := create_validates_and_persists "w8" fixedNoGroupBody emptyStore
    (by decide)
  exact h.1 fixedNoGroupDraft (by decide)

/-- C9. From a store with no settings row, the first `GET /settings` creates
exactly the default id-1 record and returns it (`PUT` likewise creates it
before patching, when its body validates); and once exactly one id-1 record
exists, every `GET /settings` and `PUT /settings` preserves that exactly
one id-1 record exists. -/
theorem settings_singleton
    (now : String) (p : SettingsPatch) (s : Store) (st : SettingsRow) :
    (s.settings = [] →
      (getSettings now s).2.settings = [defaultSettings now] ∧
      (getSettings now s).1 = .ok 200 (some (defaultSettings now)) ∧
      (updateSettings now p s).2.settings =
        (if validateSettingsPatch p then
          [applySettingsPatch p (defaultSettings now)]
        else []) ∧
      (defaultSettings now).id = 1) ∧
    (s.settings = [st] → st.id = 1 →
      (getSettings now s).2.settings = [st] ∧
      (updateSettings now p s).2.settings =
        (if validateSettingsPatch p then [applySettingsPatch p st] else [st]) ∧
      (applySettingsPatch p st).id = 1) := by
  constructor
  · intro hemp
    refine ⟨?_, ?_, ?_, rfl⟩
    · simp [getSettings, hemp, defaultSettings]
    · simp [getSettings, hemp, defaultSettings]
    · by_cases hvp : validateSettingsPatch p = true
      · simp [updateSettings, hvp, hemp, defaultSettings]
      · have hf : validateSettingsPatch p = false := Bool.eq_false_iff.2 hvp
        simp [updateSettings, hf, hemp]
  · intro hone hid
    refine ⟨?_, ?_, hid⟩
    · simp [getSettings, hone, hid]
    · by_cases hvp : validateSettingsPatch p = true
      · simp [updateSettings, hvp, hone, hid]
      · have hf : validateSettingsPatch p = false := Bool.eq_false_iff.2 hvp
        simp [updateSettings, hf, hone]

/-- Witness for C9: first access on the empty store creates the default row,
and a valid income patch keeps the table at exactly one row. -/
theorem settings_singleton_witness :
    (getSettings "T" emptyStore).2.settings = [defaultSettings "T"] ∧
    (updateSettings "T" { monthlyIncome := some 9000 } emptyStore).2.settings =
      (if validateSettingsPatch { monthlyIncome := some 9000 } then
        [applySettingsPatch { monthlyIncome := some 9000 } (defaultSettings "T")]
      else []) := by
  have h := settings_singleton "T" { monthlyIncome := some 9000 } emptyStore
    (defaultSettings "T")
  exact ⟨(h.1 rfl).1, (h.1 rfl).2.2.1⟩

/-- C10. A recurring request that omits `months` behaves exactly as if
`months = 12` had been supplied (and, for a valid base, yields 12 generated
transactions with a 201); a supplied `months` that is not an integer in
`1..24` is rejected with a 400 `VALIDATION_ERROR` and no rows inserted. -/
theorem recurring_months_default_and_bounds
    (gid : String) (ids : List String) (base : RawTxnBody) (s : Store) :
    (createRecurring gid ids { base := base, months := none } s =
      createRecurring gid ids { base := base, months := some 12 } s) ∧
    (∀ (dft : TxnDraft) (y m d : Nat),
      validateTxn base = some dft → parseDate dft.date = some (y, m, d) →
      respStatus (createRecurring gid ids
          { base := base, months := none } s).1 = 201 ∧
      (respData (createRecurring gid ids
          { base := base, months := none } s).1).length = 12) ∧
    (∀ q : ℚ, ¬(q.den = 1 ∧ 1 ≤ q ∧ q ≤ 24) →
      createRecurring gid ids { base := base, months := some q } s =
        (.err 400 .validation, s)) := by
  have hv12 : ∀ dft, validateTxn base = some dft →
      validateRecurring { base := base, months := some (12 : ℚ) } =
        some (dft, 12) := by
    intro dft hv
    have h12 : ((12 : ℚ).num.toNat) = 12 := by decide
    simp only [validateRecurring, hv]
    rw [if_pos (by norm_num), h12]
  refine ⟨?_, ?_, ?_⟩
  · rcases hv : validateTxn base with _ | dft
    · simp [createRecurring, validateRecurring, hv]
    · have hn : validateRecurring { base := base, months := none } =
          some (dft, 12) := by
        simp [validateRecurring, hv]
      simp only [createRecurring, hn, hv12 dft hv]
  · intro dft y m d hv hp
    have hn : validateRecurring { base := base, months := none } =
        some (dft, 12) := by
      simp [validateRecurring, hv]
    constructor
    · simp only [createRecurring, hn, hp, respStatus]
    · simp only [createRecurring, hn, hp, respData]
      rw [recurLoop_snd_length]
      simp
  · intro q hq
    rcases hv : validateTxn base with _ | dft <;>
      simp [createRecurring, validateRecurring, hv, hq]

/-- The scenario base with the `months` field omitted. -/
def omittedMonthsBody : RawRecurringBody :=
  { base := scenarioBody.base, months := none }

/-- The scenario base with an out-of-range `months = 25`. -/
def months25Body : RawRecurringBody :=
  { base := scenarioBody.base, months := some 25 }

/-- Witness for C10: the scenario base with `months` omitted yields 12 rows
and a 201; `months = 25` is rejected and the store is untouched. -/
theorem recurring_months_default_and_bounds_witness :
    (respStatus (createRecurring "g" [] omittedMonthsBody emptyStore).1 = 201 ∧
      (respData (createRecurring "g" [] omittedMonthsBody
        emptyStore).1).length = 12) ∧
    createRecurring "g" [] months25Body emptyStore =
      (.err 400 .validation, emptyStore) := by
  have h := recurring_months_default_and_bounds "g" [] scenarioBody.base
    emptyStore
  exact ⟨h.2.1 scenarioDraft 2025 1 31 (by decide) (by decide),
    h.2.2 25 (by decide)⟩

/-- An uncategorised one-off transaction (NULL `category_id`), exactly what
`POST /transactions` stores for a body without a category. -/
def nullCatTxn : Txn :=
  { id := "n1", date := "2025-04-01", amount := 10, categoryId := none,
    description := "misc", type := .expense, isFixed := false,
    groupId := some "g" }

/-- A store whose export contains a NULL-category transaction. -/
def nullCatStore : Store :=
  { transactions := [nullCatTxn], categories := [],
    settings := [defaultSettings "T"] }

/-- C7 counterexample. Exporting a store holding an uncategorised
transaction and feeding the export back to `POST /migrate/import` does not
succeed: the serialised NULL `categoryId` fails `z.string()` and the whole
payload is rejected with a 400, so export-then-import is not an identity
on every store state. -/
theorem import_rejects_reexported_null_category :
    importData "U" (exportPayload nullCatStore) nullCatStore =
      (.err 400 .validation, nullCatStore) := by
  decide

/-- C7 amended. For every store whose settings row exists (with a non-empty
`balanceAsOf`, which JS `||` would otherwise replace) and all of whose
transactions have non-null `categoryId` and `groupId`, export-then-import
succeeds, skips every already-present id (importing 0 categories and 0
transactions), and leaves the store contents identical. -/
theorem export_import_roundtrip
    (now : String) (s : Store) (st : SettingsRow)
    (hset : s.settings = [st]) (hid : st.id = 1) (hba : st.balanceAsOf ≠ "")
    (htx : ∀ t ∈ s.transactions, t.categoryId ≠ none ∧ t.groupId ≠ none) :
    importData now (exportPayload s) s =
      (.ok 200 { categoriesImported := 0, transactionsImported := 0,
                 settingsUpdated := true }, s) := by
  have hexp : exportPayload s =
      { categories := s.categories, transactions := s.transactions,
        settings := some st } := by
    simp [exportPayload, hset, hid]
  have hall : s.transactions.all
      (fun t => t.categoryId.isSome && t.groupId.isSome) = true := by
    rw [List.all_eq_true]
    intro t ht
    have h := htx t ht
    simp [Option.isSome_iff_ne_none, h.1, h.2]
  have hcats : importCats s.categories (s.categories, 0) = (s.categories, 0) :=
    importCats_skip _ _ _ fun c hc => ⟨c, hc, rfl⟩
  have htxs : importTxns s.transactions (s.transactions, 0) =
      (s.transactions, 0) :=
    importTxns_skip _ _ _ fun t ht => ⟨t, ht, rfl⟩
  have hfind : s.settings.find? (fun r => decide (r.id = 1)) = some st := by
    simp [hset, hid]
  have hrow : importSettingsRow now st st = st := by
    cases st with
    | mk i mi cur sfc cb ccb ba =>
      simp only [importSettingsRow, SettingsRow.mk.injEq, true_and]
      refine ⟨?_, ?_, ?_⟩
      · split <;> simp_all
      · split <;> simp_all
      · exact if_neg hba
  have hmap : s.settings.map
      (fun r => if r.id = 1 then importSettingsRow now st r else r) =
      s.settings := by
    rw [hset]
    simp [hid, hrow]
  rw [hexp]
  simp only [importData, hall, if_pos, hcats, htxs, hfind, hmap]

/-- A grocery category fixture. -/
def catFood : Category :=
  { id := "food", name := "Food", weeklyBudget := 100, period := .weekly,
    color := "#fff" }

/-- A store with a category, a well-formed group transaction and settings. -/
def roundTripStore : Store :=
  { transactions := [txnA], categories := [catFood],
    settings := [defaultSettings "T"] }

/-- Witness for the amended C7: exporting and re-importing `roundTripStore`
succeeds, imports nothing new, and leaves the store identical. -/
theorem export_import_roundtrip_witness :
    importData "U" (exportPayload roundTripStore) roundTripStore =
      (.ok 200 { categoriesImported := 0, transactionsImported := 0,
                 settingsUpdated := true }, roundTripStore) :=
  export_import_roundtrip "U" roundTripStore (defaultSettings "T")
    (by decide) (by decide) (by decide) (by decide)

end ZenSpend
